import Mathlib

/-!
# CheckMate backend — verification of the authentication / session-security core

Shallow embedding of the security-relevant parts of the CheckMate backend
(Node/Express + Mongoose) and proofs about them.

Conventions of the embedding:
* Time is `Nat`, milliseconds since epoch (`Date.now()`).
* Mongo documents become Lean structures; a collection becomes a `List` of
  records, and `findOne` / `updateOne` become explicit state passing.
* `bcrypt.compare(entered, hash)` is modelled as string equality of the
  entered password with the stored secret (the hash is opaque; the only
  observable is whether the comparison succeeds).
* JS truthiness on a `String` field means the string is nonempty; truthiness
  on an optional `Date` field means the option is `some`.
* Randomness (backup codes, WebAuthn challenges, signed tokens) is supplied
  as explicit parameters.
-/

namespace CheckMate

/-! ## User model — src/models/user.model.js -/

/-- A `User` document (the fields relevant to login / lockout).
`password` stands for the stored bcrypt hash; comparison against it is
modelled as string equality. -/
structure UserRec where
  id : Nat
  email : String
  password : String
  role : String
  isActive : Bool
  loginAttempts : Nat
  lockUntil : Option Nat
  lastFailedLogin : Option Nat
  deriving Repr, DecidableEq

/-- From `user.model.js` virtual `isLocked`: `!!(this.lockUntil && this.lockUntil > Date.now())`. -/
def UserRec.isLocked (u : UserRec) (now : Nat) : Bool :=
  match u.lockUntil with
  | some l => now < l
  | none => false

/-- Lockout threshold from `user.model.js` (`maxAttempts = 5`). -/
def maxAttempts : Nat := 5

/-- Lock duration from `user.model.js` (`30 * 60 * 1000` ms). -/
def lockTime : Nat := 30 * 60 * 1000

/-- From `user.model.js` `incLoginAttempts`: if a previous lock has expired,
restart the counter at 1 and unset the lock; otherwise increment the
counter, and set `lockUntil` once `loginAttempts + 1 >= 5` while not
currently locked. -/
def UserRec.incLoginAttempts (u : UserRec) (now : Nat) : UserRec :=
  match u.lockUntil with
  | some l =>
    if l < now then
      { u with loginAttempts := 1, lastFailedLogin := some now, lockUntil := none }
    else
      if u.loginAttempts + 1 ≥ maxAttempts ∧ ¬ u.isLocked now then
        { u with loginAttempts := u.loginAttempts + 1, lastFailedLogin := some now,
                 lockUntil := some (now + lockTime) }
      else
        { u with loginAttempts := u.loginAttempts + 1, lastFailedLogin := some now }
  | none =>
    if u.loginAttempts + 1 ≥ maxAttempts ∧ ¬ u.isLocked now then
      { u with loginAttempts := u.loginAttempts + 1, lastFailedLogin := some now,
               lockUntil := some (now + lockTime) }
    else
      { u with loginAttempts := u.loginAttempts + 1, lastFailedLogin := some now }

/-- From `user.model.js` `resetLoginAttempts`. -/
def UserRec.resetLoginAttempts (u : UserRec) : UserRec :=
  { u with loginAttempts := 0, lockUntil := none, lastFailedLogin := none }

/-! ## Login — src/controllers/auth.controller.js -/

/-- JS `Math.ceil(a / b)` on nonnegative integers. -/
def ceilDiv (a b : Nat) : Nat := (a + b - 1) / b

/-- Outcome of `POST /api/auth/login` (the cases of `exports.login` after the
user lookup).  Token minting and session creation follow on `success` in the
controller; they are modelled separately where a claim needs them. -/
inductive LoginResult where
  | accountLocked (lockUntil : Nat) (remainingMinutes : Nat)
  | invalidCredentials (remainingAttempts : Nat)
  | requires2FA
  | success
  deriving Repr, DecidableEq

/-- From `auth.controller.js` `login`, from the point where the user record has
been fetched (`User.findOne` with the lockout fields selected).  Returns the
stored user record after the attempt together with the HTTP outcome.

Faithful detail: on a wrong password the controller calls
`user.incLoginAttempts()` (a Mongo `updateOne`, which does not refresh the
in-memory document) and then computes
`remainingAttempts = Math.max(0, 5 - (user.loginAttempts + 1))` from the
**stale** pre-attempt counter; `Nat` truncated subtraction implements the
`Math.max(0, ·)`. -/
def login (u : UserRec) (password : String) (twoFAEnabled : Bool) (now : Nat) :
    UserRec × LoginResult :=
  if u.isLocked now then
    let l := u.lockUntil.getD 0
    (u, .accountLocked l (ceilDiv (l - now) 60000))
  else if password ≠ u.password then
    (u.incLoginAttempts now, .invalidCredentials (maxAttempts - (u.loginAttempts + 1)))
  else
    let u2 := if u.loginAttempts > 0 then u.resetLoginAttempts else u
    if twoFAEnabled then (u2, .requires2FA) else (u2, .success)

/-! ## Two-factor settings — src/models/twoFactor.model.js -/

/-- One element of the `backupCodes` array. -/
structure BackupCode where
  code : String
  used : Bool
  usedAt : Option Nat
  deriving Repr, DecidableEq

/-- The `TwoFactor` document fields touched by backup-code handling. -/
structure TwoFactorRec where
  userId : Nat
  isEnabled : Bool
  backupCodes : List BackupCode
  lastUsed : Option Nat
  totalUsed : Nat
  failedAttempts : Nat
  deriving Repr, DecidableEq

/-- JS `String.prototype.toUpperCase()` on the strings handled here,
character by character (structurally, so that it evaluates). -/
def upperStr (s : String) : String := ⟨s.data.map Char.toUpper⟩

/-- The `this.backupCodes.find(bc => bc.code === code && !bc.used)` step of
`verifyBackupCode`, fused with the in-place mutation `backupCode.used = true;
backupCode.usedAt = new Date()`: locate the first unused entry whose stored
code equals `code`, mark it used, and return the updated array (`none` when
no entry matches). -/
def markFirstUsed (code : String) (now : Nat) : List BackupCode → Option (List BackupCode)
  | [] => none
  | bc :: rest =>
    if bc.code = code ∧ ¬ bc.used then
      some ({ bc with used := true, usedAt := some now } :: rest)
    else
      (markFirstUsed code now rest).map (bc :: ·)

/-- From `twoFactor.model.js` `verifyBackupCode`: the lookup compares stored codes
against `code.toUpperCase()`; a hit is marked used and bumps the usage
statistics, a miss bumps `failedAttempts`. -/
def verifyBackupCode (tf : TwoFactorRec) (code : String) (now : Nat) :
    TwoFactorRec × Bool :=
  match markFirstUsed (upperStr code) now tf.backupCodes with
  | none => ({ tf with failedAttempts := tf.failedAttempts + 1 }, false)
  | some codes2 =>
    ({ tf with backupCodes := codes2, lastUsed := some now,
               totalUsed := tf.totalUsed + 1, failedAttempts := 0 }, true)

/-- From `twoFactor.model.js` `generateBackupCodes`: the `for` loop pushes each
freshly generated code onto `this.backupCodes` (`{code, used: false}`) and
collects the plaintext codes for the caller.  The random
`crypto.randomBytes(4).toString('hex').toUpperCase()` draws are supplied as
the `fresh` list (one entry per loop iteration). -/
def generateBackupCodes : TwoFactorRec → List String → TwoFactorRec × List String
  | tf, [] => (tf, [])
  | tf, c :: cs =>
    let tf2 := { tf with backupCodes := tf.backupCodes ++ [⟨c, false, none⟩] }
    let r := generateBackupCodes tf2 cs
    (r.1, c :: r.2)

/-- A sequence of sequential `verifyBackupCode` calls — the code and the
time of each call — applied in order to a two-factor record. -/
def applyBackupCalls (tf : TwoFactorRec) (calls : List (String × Nat)) : TwoFactorRec :=
  calls.foldl (fun s p => (verifyBackupCode s p.1 p.2).1) tf

/-- Every stored entry carrying `code` is already marked used. -/
def allUsedOf (code : String) (l : List BackupCode) : Prop :=
  ∀ bc ∈ l, bc.code = code → bc.used = true

/-! ## Sessions — src/models/session.model.js -/

/-- The `deviceInfo` subdocument produced by `parseUserAgent`. -/
structure DeviceInfo where
  browser : String
  os : String
  device : String
  deriving Repr, DecidableEq

/-- A `Session` document. -/
structure SessionRec where
  userId : Nat
  token : String
  refreshToken : Option String
  ipAddress : String
  userAgent : String
  deviceInfo : DeviceInfo
  isActive : Bool
  lastActivity : Nat
  expiresAt : Nat
  logoutAt : Option Nat
  logoutReason : Option String
  deriving Repr, DecidableEq

/-- The filter `{userId, isActive: true, expiresAt: {$gt: new Date()}}` used
by `getActiveSessions`, `validateSession` (minus the token part) and
`enforceConcurrentLimit`. -/
def SessionRec.activeFor (s : SessionRec) (userId now : Nat) : Bool :=
  s.userId = userId ∧ s.isActive ∧ now < s.expiresAt

/-- Comparison used by `.sort({ lastActivity: -1 })`: `s` sorts no later
than `t` in descending-activity order. -/
def actGE (s t : SessionRec) : Prop := t.lastActivity ≤ s.lastActivity

instance : DecidableRel actGE := fun s t => by
  unfold actGE; infer_instance

instance : IsTotal SessionRec actGE :=
  ⟨fun s t => Nat.le_total t.lastActivity s.lastActivity⟩

instance : IsTrans SessionRec actGE :=
  ⟨fun _ _ _ h h2 => Nat.le_trans h2 h⟩

/-- From `session.model.js` `createSession` (the `deviceInfo` parse is applied by
the caller of this embedding). -/
def createSession (sessions : List SessionRec) (userId : Nat) (token : String)
    (refreshToken : Option String) (ipAddress userAgent : String)
    (deviceInfo : DeviceInfo) (expiresIn now : Nat) : List SessionRec :=
  sessions ++ [⟨userId, token, refreshToken, ipAddress, userAgent, deviceInfo,
               true, now, now + expiresIn, none, none⟩]

/-- From `session.model.js` `validateSession`: `findOne({token, isActive: true,
expiresAt: {$gt: new Date()}})`; on a hit the session's `lastActivity` is
refreshed and saved.  Returns the session as found together with the updated
store. -/
def validateSession (sessions : List SessionRec) (token : String) (now : Nat) :
    Option SessionRec × List SessionRec :=
  match sessions.find? (fun s => s.token = token ∧ s.isActive ∧ now < s.expiresAt) with
  | none => (none, sessions)
  | some s =>
    (some s,
     sessions.map (fun t =>
       if t.token = token ∧ t.isActive ∧ now < t.expiresAt then
         { t with lastActivity := now }
       else t))

/-- The `$set` applied by `enforceConcurrentLimit`'s `updateMany`. -/
def SessionRec.evict (s : SessionRec) (now : Nat) : SessionRec :=
  { s with isActive := false, logoutAt := some now, logoutReason := some "security" }

/-- From `session.model.js` `enforceConcurrentLimit`: list the active, unexpired
sessions of the user sorted by most-recent activity; if there are more than
`maxSessions`, mark the excess (oldest) ones inactive with reason
`security` and return how many were evicted. -/
def enforceConcurrentLimit (sessions : List SessionRec) (userId : Nat)
    (maxSessions now : Nat) : List SessionRec × Nat :=
  let active := ((sessions.filter (fun s => s.activeFor userId now)).insertionSort actGE)
  if maxSessions < active.length then
    let toInvalidate := active.drop maxSessions
    let tokenIds : List String := toInvalidate.map (·.token)
    (sessions.map (fun s => if s.token ∈ tokenIds then s.evict now else s),
     toInvalidate.length)
  else
    (sessions, 0)

/-! ## Token blacklist — src/models/tokenBlacklist.model.js -/

/-- A `TokenBlacklist` document. -/
structure BlkEntry where
  token : String
  userId : Nat
  reason : String
  expiresAt : Nat
  deriving Repr, DecidableEq

/-- From `tokenBlacklist.model.js` `blacklistToken`: insert an entry; a duplicate
insert hits the unique index on `token` (Mongo error 11000) and is treated
as success, leaving the store unchanged. -/
def blacklistToken (store : List BlkEntry) (token : String) (userId : Nat)
    (reason : String) (expiresAt : Nat) : List BlkEntry :=
  if store.any (·.token = token) then store
  else store ++ [⟨token, userId, reason, expiresAt⟩]

/-- From `tokenBlacklist.model.js` `isBlacklisted`: `!!(await findOne({token}))`. -/
def isBlacklisted (store : List BlkEntry) (token : String) : Bool :=
  store.any (·.token = token)

/-- From `tokenBlacklist.model.js` `cleanup` — and equally the Mongo TTL index on
`expiresAt`: delete every entry whose `expiresAt` is strictly in the past.
This is the **only** way an entry ever leaves the store, and entries are
never mutated. -/
def cleanupBlacklist (store : List BlkEntry) (now : Nat) : List BlkEntry :=
  store.filter (fun e => ¬ e.expiresAt < now)

/-! ## `protect` middleware — src/middleware/auth.middleware.js -/

/-- Result of `jwt.verify(token, JWT_SECRET)` as observed by `protect`'s
`catch` block: a valid token yields its payload id, an expired token throws
`TokenExpiredError`, anything else throws some other error.  The verifier is
an external library, so it enters the embedding as an oracle of this type. -/
inductive JwtOutcome where
  | valid (id : Nat)
  | expired
  | invalid
  deriving Repr, DecidableEq

/-- Outcome of the `protect` middleware: either `next()` is called with
`req.user` / `req.token` set, or the request is rejected with an HTTP status
and message. -/
inductive ProtectResult where
  | allowed (userId : Nat) (token : String)
  | rejected (status : Nat) (msg : String)
  deriving Repr, DecidableEq

/-- JS `String.prototype.split(' ')` on the character list of a string. -/
def splitSpaces : List Char → List (List Char)
  | [] => [[]]
  | c :: rest =>
    match splitSpaces rest with
    | [] => [[]]
    | w :: ws => if c = ' ' then [] :: w :: ws else (c :: w) :: ws

/-- Token extraction of `protect`: take the authorization header, require it
to start with `Bearer`, and read `split(' ')[1]`; JS treats a missing header,
a missing second word, and an empty second word (`!token`) alike. -/
def extractBearer (authHeader : Option String) : Option String :=
  match authHeader with
  | none => none
  | some h =>
    if ("Bearer".toList).isPrefixOf h.toList then
      match (splitSpaces h.toList).get? 1 with
      | some w => if w = [] then none else some (String.mk w)
      | none => none
    else none

/-- From `auth.middleware.js` `protect`, in the order the code performs its
checks: missing token → 401; blacklisted token → 401 (before the signature
is even looked at); `jwt.verify` failure → 401 (with a dedicated message for
expiry); unknown user → 401; deactivated user → 401.  A missing or inactive
session only logs a warning — the request is still allowed.  Returns the
outcome together with the session store (updated by `validateSession`). -/
def protect (blacklist : List BlkEntry) (users : List UserRec)
    (sessions : List SessionRec) (jwtVerify : String → JwtOutcome)
    (authHeader : Option String) (now : Nat) :
    ProtectResult × List SessionRec :=
  match extractBearer authHeader with
  | none => (.rejected 401 "Not authorized to access this route", sessions)
  | some token =>
    if isBlacklisted blacklist token then
      (.rejected 401 "Token has been invalidated. Please login again.", sessions)
    else
      match jwtVerify token with
      | .expired => (.rejected 401 "Token has expired. Please login again.", sessions)
      | .invalid => (.rejected 401 "Not authorized to access this route", sessions)
      | .valid id =>
        match users.find? (·.id = id) with
        | none => (.rejected 401 "User belonging to this token no longer exists", sessions)
        | some user =>
          if ¬ user.isActive then
            (.rejected 401 "Your account has been deactivated", sessions)
          else
            -- `validateSession` runs for its side effect only; a `none`
            -- result merely logs a warning and the request proceeds.
            (.allowed user.id token, (validateSession sessions token now).2)

/-- The session-free verdict specification for `protect` (the amended C2):
the verdict depends only on the blacklist, the JWT verifier and the user
store — the session store is never consulted for the decision.  This
definition follows the amended spec wording and is compared against
`protect` itself. -/
def protectVerdictSpec (blacklist : List BlkEntry) (users : List UserRec)
    (jwtVerify : String → JwtOutcome) (tok : String) : ProtectResult :=
  if isBlacklisted blacklist tok then
    .rejected 401 "Token has been invalidated. Please login again."
  else
    match jwtVerify tok with
    | .expired => .rejected 401 "Token has expired. Please login again."
    | .invalid => .rejected 401 "Not authorized to access this route"
    | .valid id =>
      match users.find? (·.id = id) with
      | none => .rejected 401 "User belonging to this token no longer exists"
      | some u =>
        if ¬ u.isActive then .rejected 401 "Your account has been deactivated"
        else .allowed u.id tok

/-! ### Reachable blacklist states (claim C3)

The store evolves only through `blacklistToken` inserts, `cleanup` / TTL
deletion, and the passage of time; nothing else in the source writes to the
collection. -/

/-- One evolution step of the blacklist store paired with the current time. -/
inductive BlkStep : List BlkEntry × Nat → List BlkEntry × Nat → Prop where
  | insert (store : List BlkEntry) (now : Nat) (t : String) (uid : Nat)
      (reason : String) (exp : Nat) :
      BlkStep (store, now) (blacklistToken store t uid reason exp, now)
  | cleanup (store : List BlkEntry) (now : Nat) :
      BlkStep (store, now) (cleanupBlacklist store now, now)
  | tick (store : List BlkEntry) (now later : Nat) (h : now ≤ later) :
      BlkStep (store, now) (store, later)

/-- Finitely many `BlkStep`s. -/
def BlkReachable : List BlkEntry × Nat → List BlkEntry × Nat → Prop :=
  Relation.ReflTransGen BlkStep

/-- The store holds an entry for `token` whose mirrored expiry is `E`. -/
def liveEntry (token : String) (E : Nat) (store : List BlkEntry) : Prop :=
  ∃ en ∈ store, en.token = token ∧ en.expiresAt = E

/-! ## Token refresh — src/controllers/session.controller.js `refreshToken` -/

/-- Outcome of `POST /api/sessions/refresh`. -/
inductive RefreshResult where
  | missingToken
  | invalidRefreshToken
  | userNotFoundOrInactive
  | success (token : String) (expiresAt : Option Nat)
  deriving Repr, DecidableEq

/-- Replace the first list element satisfying `p` by `f` of it (Mongoose
`session.save()` after mutating the document found by `findOne`). -/
def updateFirst (p : SessionRec → Bool) (f : SessionRec → SessionRec) :
    List SessionRec → List SessionRec
  | [] => []
  | s :: rest => if p s then f s :: rest else s :: updateFirst p f rest

/-- The in-place rotation performed on the session that owns the presented
refresh token: `session.token = newToken; session.lastActivity = new Date()`. -/
def SessionRec.rotateAccess (s : SessionRec) (newToken : String) (now : Nat) : SessionRec :=
  { s with token := newToken, lastActivity := now }

/-- The `findOne({refreshToken, isActive: true, expiresAt: {$gt: new Date()}})`
predicate of `refreshToken`. -/
def ownsRefresh (rt : String) (now : Nat) (s : SessionRec) : Bool :=
  s.refreshToken = some rt ∧ s.isActive ∧ now < s.expiresAt

/-- From `session.controller.js` `refreshToken`: verify the refresh token's
signature (`verifyRefreshToken`, an external JWT library call supplied as
the oracle `verifyRefresh` returning the payload id, with `none` for any
verification failure — the controller's `catch` answers 401); find the
active, unexpired session owning it; require the user to exist and be
active; then mint a new access token (`newToken`, with its decoded expiry
`newTokenExp`) and rotate it into the session record in place. -/
def refreshTokenOp (verifyRefresh : String → Option Nat)
    (newToken : String) (newTokenExp : Option Nat)
    (sessions : List SessionRec) (users : List UserRec)
    (rt : Option String) (now : Nat) : List SessionRec × RefreshResult :=
  match rt with
  | none => (sessions, .missingToken)
  | some rt =>
    match verifyRefresh rt with
    | none => (sessions, .invalidRefreshToken)
    | some decodedId =>
      match sessions.find? (ownsRefresh rt now) with
      | none => (sessions, .invalidRefreshToken)
      | some _ =>
        match users.find? (·.id = decodedId) with
        | none => (sessions, .userNotFoundOrInactive)
        | some user =>
          if ¬ user.isActive then (sessions, .userNotFoundOrInactive)
          else
            (updateFirst (ownsRefresh rt now) (·.rotateAccess newToken now) sessions,
             .success newToken newTokenExp)

/-! ## WebAuthn — src/models/webauthn.model.js, webauthnChallenge.model.js,
src/controllers/webauthn.controller.js -/

/-- A `WebAuthnCredential` document (the fields the authentication ceremony
touches).  `counterExempt` is the explicit flag for authenticators that do
not support signature counters (spec §3); the stored schema has no such
field, so concrete states instantiate it. -/
structure WebAuthnCred where
  userId : Nat
  credentialId : String
  publicKey : String
  counter : Nat
  counterExempt : Bool
  lastUsed : Option Nat
  usageCount : Nat
  isActive : Bool
  deriving Repr, DecidableEq

/-- From `webauthn.model.js` `findByCredentialId`:
`findOne({credentialId, isActive: true})`. -/
def findByCredentialId (creds : List WebAuthnCred) (credentialId : String) :
    Option WebAuthnCred :=
  creds.find? (fun c => c.credentialId = credentialId ∧ c.isActive)

/-- A `WebAuthnChallenge` document. -/
structure ChallengeRec where
  userId : Nat
  challenge : String
  purpose : String
  expiresAt : Nat
  deriving Repr, DecidableEq

/-- From `webauthnChallenge.model.js` `createChallenge`. -/
def createChallenge (challenges : List ChallengeRec) (userId : Nat)
    (challenge purpose : String) (expiresInMinutes now : Nat) : List ChallengeRec :=
  challenges ++ [⟨userId, challenge, purpose, now + expiresInMinutes * 60 * 1000⟩]

/-- From `webauthnChallenge.model.js` `verifyAndConsume`: find the unexpired
challenge for this user/value/purpose and delete it (one-time use); report
whether it was found. -/
def verifyAndConsume (challenges : List ChallengeRec) (userId : Nat)
    (challenge purpose : String) (now : Nat) : Bool × List ChallengeRec :=
  match challenges.find?
      (fun c => c.userId = userId ∧ c.challenge = challenge ∧
                c.purpose = purpose ∧ now < c.expiresAt) with
  | none => (false, challenges)
  | some c => (true, challenges.erase c)

/-- Errors thrown by the external WebAuthn response verifier. -/
inductive WebAuthnError where
  | signatureInvalid
  | replayDetected
  deriving Repr, DecidableEq

/-- Modelled from the spec: the cryptographic assertion verifier
(`verifyAuthenticationResponse` of the `@simplewebauthn/server` package) is
not part of this repository.  Per §4.3, it verifies the signed assertion
against the stored public key and rejects with `ReplayDetected` when the
assertion's counter is not strictly greater than the stored counter, unless
the credential is counter-exempt (§3).  Whether the signature itself checks
out is the oracle input `signatureValid`; on success the call returns the
assertion's counter as `authenticationInfo.newCounter`. -/
def verifyAuthenticationResponse (signatureValid : Bool)
    (storedCounter newCounter : Nat) (counterExempt : Bool) :
    Except WebAuthnError Nat :=
  if ¬ signatureValid then .error .signatureInvalid
  else if ¬ counterExempt ∧ newCounter ≤ storedCounter then .error .replayDetected
  else .ok newCounter

/-- The assertion of a finish-authentication request, with the cryptographic
content abstracted: `rawId` / `credId` carry the credential identifier (the
base64 decode/re-encode of `rawId` is the identity on the stored encoding),
`challenge` is the client-data challenge, and `signatureValid` is the
verdict of the signature check against the stored public key. -/
structure AssertionReq where
  rawId : Option String
  credId : Option String
  challenge : String
  signatureValid : Bool
  newCounter : Nat
  deriving Repr, DecidableEq

/-- Outcome of `POST /api/webauthn/auth/verify`. -/
inductive VerifyAuthResponse where
  | missingFields                       -- 400: credential or email absent
  | authenticationFailed                -- 401: unknown email
  | invalidCredentialData               -- 400: neither rawId nor id
  | credentialNotFound                  -- 401: no stored credential / wrong owner
  | challengeInvalid                    -- 400: invalid or expired challenge
  | invalidStoredCredential             -- 400: stored credentialId/publicKey empty
  | verificationError (e : WebAuthnError)  -- 401: the verifier threw
  | success (token refreshToken : String)  -- 200 with tokens
  deriving Repr, DecidableEq

/-- State the finish-authentication ceremony reads and writes. -/
structure WebAuthnState where
  users : List UserRec
  creds : List WebAuthnCred
  challenges : List ChallengeRec
  sessions : List SessionRec
  deriving Repr, DecidableEq

/-- From `webauthn.controller.js` `verifyAuthentication`, step by step: require
both fields; resolve the user by email; resolve the credential id from
`rawId` or `id`; resolve the stored credential and check ownership; verify
and consume the single-use challenge; sanity-check the stored credential;
run the external verifier (a thrown error is caught and answered with 401);
on success persist `counter = newCounter`, bump the usage statistics, mint
the token pair (`accessToken` / `refreshTok`, supplied by the token issuer),
create a session, and enforce the concurrent-session cap of 3. -/
def verifyAuthentication (st : WebAuthnState) (email : Option String)
    (credential : Option AssertionReq) (accessToken refreshTok : String)
    (ipAddress userAgent : String) (deviceInfo : DeviceInfo) (now : Nat) :
    WebAuthnState × VerifyAuthResponse :=
  match credential, email with
  | none, _ => (st, .missingFields)
  | _, none => (st, .missingFields)
  | some cred, some email =>
    match st.users.find? (·.email = email) with
    | none => (st, .authenticationFailed)
    | some user =>
      match cred.rawId.or cred.credId with
      | none => (st, .invalidCredentialData)
      | some credentialId =>
        match findByCredentialId st.creds credentialId with
        | none => (st, .credentialNotFound)
        | some dbCredential =>
          if dbCredential.userId ≠ user.id then (st, .credentialNotFound)
          else
            let consumed := verifyAndConsume st.challenges user.id cred.challenge
              "authentication" now
            let st := { st with challenges := consumed.2 }
            if ¬ consumed.1 then (st, .challengeInvalid)
            else if dbCredential.credentialId = "" ∨ dbCredential.publicKey = "" then
              (st, .invalidStoredCredential)
            else
              match verifyAuthenticationResponse cred.signatureValid
                  dbCredential.counter cred.newCounter dbCredential.counterExempt with
              | .error e => (st, .verificationError e)
              | .ok newCounter =>
                let updated :=
                  { dbCredential with
                    counter := newCounter
                    lastUsed := some now
                    usageCount := dbCredential.usageCount + 1 }
                let creds2 := st.creds.map (fun c =>
                  if c.credentialId = dbCredential.credentialId then updated else c)
                let sessions2 := createSession st.sessions user.id accessToken
                  (some refreshTok) ipAddress userAgent deviceInfo
                  (24 * 60 * 60 * 1000) now
                let sessions3 := (enforceConcurrentLimit sessions2 user.id 3 now).1
                ({ st with creds := creds2, sessions := sessions3 },
                 .success accessToken refreshTok)

/-- Outcome of `POST /api/webauthn/auth/options`
(`generateAuthenticationOptions` in `webauthn.controller.js`). -/
inductive BeginAuthResponse where
  | emailRequired                  -- 400 {status: fail, message}
  | unknownUser                    -- 200 {status: success, data: {options: null}}
  | noCredentials                  -- 404 {status: fail, message}
  | noValidCredentials             -- 404 {status: fail, message}
  | optionsIssued (challenge : String)  -- 200 {status: success, data: {options}}
  deriving Repr, DecidableEq

/-- HTTP status code of each begin-authentication response. -/
def BeginAuthResponse.statusCode : BeginAuthResponse → Nat
  | .emailRequired => 400
  | .unknownUser => 200
  | .noCredentials => 404
  | .noValidCredentials => 404
  | .optionsIssued _ => 200

/-- The `status` field of the JSON body. -/
def BeginAuthResponse.statusField : BeginAuthResponse → String
  | .emailRequired => "fail"
  | .unknownUser => "success"
  | .noCredentials => "fail"
  | .noValidCredentials => "fail"
  | .optionsIssued _ => "success"

/-- Whether the JSON body carries a `message` field. -/
def BeginAuthResponse.hasMessage : BeginAuthResponse → Bool
  | .emailRequired => true
  | .unknownUser => false
  | .noCredentials => true
  | .noValidCredentials => true
  | .optionsIssued _ => false

/-- Whether the JSON body carries a `data` field. -/
def BeginAuthResponse.hasData : BeginAuthResponse → Bool
  | .emailRequired => false
  | .unknownUser => true
  | .noCredentials => false
  | .noValidCredentials => false
  | .optionsIssued _ => true

/-- The observable shape of a begin-authentication response: status code and
body structure. -/
def BeginAuthResponse.shape (r : BeginAuthResponse) : Nat × String × Bool × Bool :=
  (r.statusCode, r.statusField, r.hasMessage, r.hasData)

/-- From `webauthn.controller.js` `generateAuthenticationOptions`: require an
email; look the user up (an unknown email is answered 200 with
`options: null`, "Don't reveal if user exists"); list the user's active
credentials (404 if none); drop credentials with an empty stored id (404 if
none survive); otherwise issue ceremony options with a fresh single-use
challenge (5-minute TTL). -/
def generateAuthOptions (users : List UserRec) (creds : List WebAuthnCred)
    (challenges : List ChallengeRec) (email : Option String)
    (newChallenge : String) (now : Nat) : BeginAuthResponse × List ChallengeRec :=
  match email with
  | none => (.emailRequired, challenges)
  | some email =>
    if email = "" then (.emailRequired, challenges)
    else
      match users.find? (·.email = email) with
      | none => (.unknownUser, challenges)
      | some user =>
        let credentials := creds.filter (fun c => c.userId = user.id ∧ c.isActive)
        if credentials.length = 0 then (.noCredentials, challenges)
        else
          let allowCredentials := credentials.filter (fun c => c.credentialId ≠ "")
          if allowCredentials.length = 0 then (.noValidCredentials, challenges)
          else
            (.optionsIssued newChallenge,
             createChallenge challenges user.id newChallenge "authentication" 5 now)

/-! # Theorems -/

/-! ## C10 — stale failure counter in the login response -/

/-- C10: on every failed password login attempt the `remainingAttempts` in
the response equals `max(0, 5 - (a + 1))` where `a` is the failure counter
as read before the attempt was recorded; in particular, for a wrong-password
attempt made after a previous lock has expired — where `incLoginAttempts`
resets the stored counter to 1 — the response is still computed from the
stale pre-lock counter and reports 0 remaining attempts instead of 4. -/
theorem login_remainingAttempts_stale (u : UserRec) (pw : String) (tf : Bool) (now : Nat)
    (hlock : u.isLocked now = false) (hpw : pw ≠ u.password) :
    (login u pw tf now).2 = .invalidCredentials (maxAttempts - (u.loginAttempts + 1)) ∧
    ∀ l, u.lockUntil = some l → l < now → u.loginAttempts = 5 →
      (login u pw tf now).2 = .invalidCredentials 0 ∧
      (login u pw tf now).1.loginAttempts = 1 := by
  refine ⟨by simp [login, hlock, hpw], ?_⟩
  intro l hl hlt h5
  constructor
  · simp [login, hlock, hpw, h5, maxAttempts]
  · simp [login, hlock, hpw, UserRec.incLoginAttempts, hl, hlt]

/-- Witness for C10: a user whose stored counter is 5 behind an expired lock
is told 0 attempts remain although the counter restarts at 1. -/
theorem login_remainingAttempts_stale_witness :
    (login ⟨1, "a@x.com", "secret", "intern", true, 5, some 10, some 9⟩ "bad" false 20).2 =
      .invalidCredentials 0 ∧
    (login ⟨1, "a@x.com", "secret", "intern", true, 5, some 10, some 9⟩ "bad" false 20).1.loginAttempts = 1 :=
  (login_remainingAttempts_stale ⟨1, "a@x.com", "secret", "intern", true, 5, some 10, some 9⟩
    "bad" false 20 (by decide) (by decide)).2 10 rfl (by decide) rfl

/-! ## C4 — five wrong passwords lock the account for 30 minutes -/

/-- C4: for every user whose account is unlocked and whose failure counter
is 0, five consecutive wrong-password login attempts leave the account
locked until `t5 + 30 min`, the sixth attempt — even with the correct
password — fails with `AccountLocked` carrying the remaining lock duration
while the window lasts, and once the window has elapsed the correct password
logs in again. -/
theorem lockout_after_five_failures
    (u u1 u2 u3 u4 u5 : UserRec) (p1 p2 p3 p4 p5 : String) (tf : Bool)
    (t1 t2 t3 t4 t5 t6 t7 : Nat)
    (h0 : u.loginAttempts = 0) (hl : u.lockUntil = none)
    (hp1 : p1 ≠ u.password) (hp2 : p2 ≠ u.password) (hp3 : p3 ≠ u.password)
    (hp4 : p4 ≠ u.password) (hp5 : p5 ≠ u.password)
    (hu1 : u1 = (login u p1 tf t1).1) (hu2 : u2 = (login u1 p2 tf t2).1)
    (hu3 : u3 = (login u2 p3 tf t3).1) (hu4 : u4 = (login u3 p4 tf t4).1)
    (hu5 : u5 = (login u4 p5 tf t5).1) :
    u5.lockUntil = some (t5 + lockTime) ∧
    (t6 < t5 + lockTime →
      login u5 u.password tf t6 =
        (u5, .accountLocked (t5 + lockTime) (ceilDiv (t5 + lockTime - t6) 60000))) ∧
    (t5 + lockTime ≤ t7 → (login u5 u.password false t7).2 = .success) := by
  have e1 : u1 = { u with loginAttempts := 1, lastFailedLogin := some t1 } := by
    subst hu1
    simp [login, UserRec.isLocked, hl, hp1, UserRec.incLoginAttempts, h0, maxAttempts]
  have e2 : u2 = { u with loginAttempts := 2, lastFailedLogin := some t2 } := by
    subst hu2; rw [e1]
    simp [login, UserRec.isLocked, hl, hp2, UserRec.incLoginAttempts, maxAttempts]
  have e3 : u3 = { u with loginAttempts := 3, lastFailedLogin := some t3 } := by
    subst hu3; rw [e2]
    simp [login, UserRec.isLocked, hl, hp3, UserRec.incLoginAttempts, maxAttempts]
  have e4 : u4 = { u with loginAttempts := 4, lastFailedLogin := some t4 } := by
    subst hu4; rw [e3]
    simp [login, UserRec.isLocked, hl, hp4, UserRec.incLoginAttempts, maxAttempts]
  have e5 : u5 = { u with loginAttempts := 5, lastFailedLogin := some t5,
                          lockUntil := some (t5 + lockTime) } := by
    subst hu5; rw [e4]
    simp [login, UserRec.isLocked, hl, hp5, UserRec.incLoginAttempts, maxAttempts]
  refine ⟨by rw [e5], ?_, ?_⟩
  · intro h6
    rw [e5]
    simp [login, UserRec.isLocked, h6, ceilDiv]
  · intro h7
    rw [e5]
    have : ¬ t7 < t5 + lockTime := by omega
    simp [login, UserRec.isLocked, this, UserRec.resetLoginAttempts]

/-- Witness for C4 at a concrete user and concrete attempt times. -/
theorem lockout_after_five_failures_witness :
    (login (login (login (login (login ⟨1, "a@x.com", "pw", "intern", true, 0, none, none⟩
        "bad" false 1).1 "bad" false 2).1 "bad" false 3).1 "bad" false 4).1
        "bad" false 5).1.lockUntil = some (5 + lockTime) ∧
    (10 < 5 + lockTime →
      login ((login (login (login (login (login ⟨1, "a@x.com", "pw", "intern", true, 0, none, none⟩
          "bad" false 1).1 "bad" false 2).1 "bad" false 3).1 "bad" false 4).1
          "bad" false 5).1) "pw" false 10 =
        ((login (login (login (login (login ⟨1, "a@x.com", "pw", "intern", true, 0, none, none⟩
          "bad" false 1).1 "bad" false 2).1 "bad" false 3).1 "bad" false 4).1
          "bad" false 5).1,
         .accountLocked (5 + lockTime) (ceilDiv (5 + lockTime - 10) 60000))) ∧
    (5 + lockTime ≤ 5 + lockTime →
      (login ((login (login (login (login (login ⟨1, "a@x.com", "pw", "intern", true, 0, none, none⟩
          "bad" false 1).1 "bad" false 2).1 "bad" false 3).1 "bad" false 4).1
          "bad" false 5).1) "pw" false (5 + lockTime)).2 = .success) :=
  lockout_after_five_failures ⟨1, "a@x.com", "pw", "intern", true, 0, none, none⟩
    _ _ _ _ _ "bad" "bad" "bad" "bad" "bad" false 1 2 3 4 5 10 (5 + lockTime)
    rfl rfl (by decide) (by decide) (by decide) (by decide) (by decide)
    rfl rfl rfl rfl rfl

/-! ## C8 — `generateBackupCodes` appends, it does not replace -/

/-- Counterexample for C8: a user who already stores one (used) backup code
calls `generateBackupCodes` with one fresh code; the stored set afterwards
is not equal to just the one newly generated unused code — the old entry is
still there (the boolean comparison evaluates to `false`). -/
theorem generateBackupCodes_not_replacing :
    ((generateBackupCodes ⟨7, true, [⟨"OLDCODE1", true, some 5⟩], none, 1, 0⟩
        ["NEWCODE1"]).1.backupCodes ==
      [(⟨"NEWCODE1", false, none⟩ : BackupCode)]) = false := by decide

/-- C8 (amended): `generateBackupCodes(user, n)` appends the `n` newly
generated codes, as unused entries, to the user's stored backup-code set —
previously stored codes, used or unused, are retained — and the call
returns the `n` plaintext codes. -/
theorem generateBackupCodes_appends (tf : TwoFactorRec) (fresh : List String) :
    (generateBackupCodes tf fresh).1 =
      { tf with backupCodes :=
          tf.backupCodes ++ fresh.map (fun c => ⟨c, false, none⟩) } ∧
    (generateBackupCodes tf fresh).2 = fresh := by
  induction fresh generalizing tf with
  | nil => simp [generateBackupCodes]
  | cons c cs ih =>
    have h := ih { tf with backupCodes := tf.backupCodes ++ [⟨c, false, none⟩] }
    simp [generateBackupCodes, h.1, h.2, List.append_assoc]

/-! ## C9 — refresh rotates the access token in place -/

/-- C9: on every successful refresh-token call, the session store is updated
only at the session owning the presented refresh token, and that record is
changed only in its access-token field and last-activity timestamp; its
`refreshToken`, `userId`, `ipAddress`, `userAgent`, `deviceInfo`,
`isActive`, `expiresAt` (and logout bookkeeping) are unchanged — in
particular the refresh token itself is not rotated. -/
theorem refresh_rotates_access_in_place
    (verifyRefresh : String → Option Nat) (newToken : String) (newTokenExp : Option Nat)
    (sessions : List SessionRec) (users : List UserRec) (rt : Option String) (now : Nat)
    (tok : String) (e : Option Nat)
    (hsucc : (refreshTokenOp verifyRefresh newToken newTokenExp sessions users rt now).2 =
      .success tok e) :
    ∃ rts s, rt = some rts ∧
      sessions.find? (ownsRefresh rts now) = some s ∧
      (refreshTokenOp verifyRefresh newToken newTokenExp sessions users rt now).1 =
        updateFirst (ownsRefresh rts now) (fun x => x.rotateAccess newToken now) sessions ∧
      (s.rotateAccess newToken now).token = newToken ∧
      (s.rotateAccess newToken now).lastActivity = now ∧
      (s.rotateAccess newToken now).refreshToken = s.refreshToken ∧
      (s.rotateAccess newToken now).userId = s.userId ∧
      (s.rotateAccess newToken now).ipAddress = s.ipAddress ∧
      (s.rotateAccess newToken now).userAgent = s.userAgent ∧
      (s.rotateAccess newToken now).deviceInfo = s.deviceInfo ∧
      (s.rotateAccess newToken now).isActive = s.isActive ∧
      (s.rotateAccess newToken now).expiresAt = s.expiresAt ∧
      (s.rotateAccess newToken now).logoutAt = s.logoutAt ∧
      (s.rotateAccess newToken now).logoutReason = s.logoutReason := by
  match hrt : rt with
  | none => simp [refreshTokenOp] at hsucc
  | some rts =>
    match hv : verifyRefresh rts with
    | none => simp [refreshTokenOp, hv] at hsucc
    | some decodedId =>
      match hf : sessions.find? (ownsRefresh rts now) with
      | none => simp [refreshTokenOp, hv, hf] at hsucc
      | some s =>
        match hu : users.find? (·.id = decodedId) with
        | none => simp [refreshTokenOp, hv, hf, hu] at hsucc
        | some user =>
          by_cases hact : user.isActive
          · refine ⟨rts, s, rfl, hf, ?_, rfl, rfl, rfl, rfl, rfl, rfl, rfl, rfl, rfl, rfl, rfl⟩
            simp [refreshTokenOp, hv, hf, hu, hact]
          · simp [refreshTokenOp, hv, hf, hu, hact] at hsucc

/-- Witness for C9 at a one-session store: the store after the call is the
in-place rotation of the single owning session. -/
theorem refresh_rotates_access_in_place_witness :
    (refreshTokenOp (fun x => if x = "rtok" then some 1 else none) "new" (some 99)
      [⟨1, "old", some "rtok", "ip", "ua", ⟨"Chrome", "Linux", "Desktop"⟩, true, 3, 100,
        none, none⟩]
      [⟨1, "a@x.com", "pw", "intern", true, 0, none, none⟩] (some "rtok") 7).1 =
      updateFirst (ownsRefresh "rtok" 7) (fun x => x.rotateAccess "new" 7)
        [⟨1, "old", some "rtok", "ip", "ua", ⟨"Chrome", "Linux", "Desktop"⟩, true, 3, 100,
          none, none⟩] := by
  have h := refresh_rotates_access_in_place (fun x => if x = "rtok" then some 1 else none)
    "new" (some 99)
    [⟨1, "old", some "rtok", "ip", "ua", ⟨"Chrome", "Linux", "Desktop"⟩, true, 3, 100,
      none, none⟩]
    [⟨1, "a@x.com", "pw", "intern", true, 0, none, none⟩] (some "rtok") 7 "new" (some 99)
    (by decide)
  obtain ⟨rts, s, h1, _, h3, _⟩ := h
  cases h1
  exact h3

/-! ## C3 — revoked tokens stay rejected -/

/-- A blacklist step never moves time backwards. -/
theorem BlkStep.time_mono {a b : List BlkEntry × Nat} (h : BlkStep a b) :
    a.2 ≤ b.2 := by
  cases h with
  | insert => exact Nat.le_refl _
  | cleanup => exact Nat.le_refl _
  | tick _ _ _ hle => exact hle

/-- Inserting with `blacklistToken` never removes entries. -/
theorem blacklistToken_keeps (en : BlkEntry) (store : List BlkEntry)
    (t : String) (uid : Nat) (reason : String) (exp : Nat) (h : en ∈ store) :
    en ∈ blacklistToken store t uid reason exp := by
  unfold blacklistToken
  split
  · exact h
  · exact List.mem_append_left _ h

/-- One step preserves a live entry as long as time has not passed its
mirrored expiry: entries are never mutated, inserts never remove, and
cleanup (or TTL deletion) only removes entries that are already expired. -/
theorem BlkStep.keeps_liveEntry {a b : List BlkEntry × Nat} (t : String) (E : Nat)
    (h : BlkStep a b) (hE : b.2 ≤ E) (hl : liveEntry t E a.1) : liveEntry t E b.1 := by
  obtain ⟨en, hen, h1, h2⟩ := hl
  cases h with
  | insert store now tk uid reason exp =>
    exact ⟨en, blacklistToken_keeps en store tk uid reason exp hen, h1, h2⟩
  | cleanup store now =>
    refine ⟨en, List.mem_filter.mpr ⟨hen, ?_⟩, h1, h2⟩
    simp only [decide_eq_true_eq]
    omega
  | tick store now later hle => exact ⟨en, hen, h1, h2⟩

/-- Reachability preserves a live entry up to its mirrored expiry. -/
theorem BlkReachable.preserves_liveEntry {a b : List BlkEntry × Nat} (t : String)
    (E : Nat) (h : BlkReachable a b) :
    b.2 ≤ E → liveEntry t E a.1 → liveEntry t E b.1 := by
  induction h with
  | refl => exact fun _ hl => hl
  | tail hab hbc ih =>
    intro hE hl
    have hb : _ ≤ E := Nat.le_trans (BlkStep.time_mono hbc) hE
    exact BlkStep.keeps_liveEntry t E hbc hE (ih hb hl)

/-- A live entry makes `isBlacklisted` answer `true`. -/
theorem isBlacklisted_of_liveEntry (t : String) (E : Nat) (store : List BlkEntry)
    (h : liveEntry t E store) : isBlacklisted store t = true := by
  obtain ⟨en, hen, h1, _⟩ := h
  unfold isBlacklisted
  rw [List.any_eq_true]
  exact ⟨en, hen, by simp [h1]⟩

/-- C3: once `blacklistToken` has run for a token `t` (leaving an entry with
mirrored expiry `E`), then in **every** state reachable afterwards through
inserts, cleanup passes, TTL deletion and the passage of time — as long as
the clock has not passed `E` — `isBlacklisted t` is still `true`, and the
`protect` middleware answers 401 "Token has been invalidated" for any
request bearing `t`, whatever the user store, session store and JWT
verifier say (the blacklist check runs before every other check, so even a
token whose signature still verifies and whose TTL has not elapsed is
rejected); the session store is not even consulted. -/
theorem revoked_token_stays_rejected (store : List BlkEntry) (now : Nat)
    (t : String) (uid : Nat) (reason : String) (exp E : Nat)
    (hlive : liveEntry t E (blacklistToken store t uid reason exp))
    (store2 : List BlkEntry) (now2 : Nat)
    (hreach : BlkReachable (blacklistToken store t uid reason exp, now) (store2, now2))
    (hbound : now2 ≤ E)
    (users : List UserRec) (sessions : List SessionRec)
    (jwtVerify : String → JwtOutcome) (authHeader : Option String)
    (hhdr : extractBearer authHeader = some t) :
    isBlacklisted store2 t = true ∧
    protect store2 users sessions jwtVerify authHeader now2 =
      (.rejected 401 "Token has been invalidated. Please login again.", sessions) := by
  have hlive2 : liveEntry t E store2 :=
    BlkReachable.preserves_liveEntry t E hreach hbound hlive
  have hbl : isBlacklisted store2 t = true :=
    isBlacklisted_of_liveEntry t E store2 hlive2
  exact ⟨hbl, by simp [protect, hhdr, hbl]⟩

/-- Witness for C3: `tok` is revoked at time 0 with expiry 100; time passes
to 50, a cleanup pass runs, another token is inserted, time passes to 80 —
`tok` is still blacklisted and `protect` still rejects it even though the
JWT verifier would call it valid. -/
theorem revoked_token_stays_rejected_witness :
    isBlacklisted
      (blacklistToken (cleanupBlacklist (blacklistToken [] "tok" 1 "logout" 100) 50)
        "other" 2 "logout" 10) "tok" = true ∧
    protect
      (blacklistToken (cleanupBlacklist (blacklistToken [] "tok" 1 "logout" 100) 50)
        "other" 2 "logout" 10)
      [⟨1, "a@x.com", "pw", "intern", true, 0, none, none⟩] []
      (fun _ => .valid 1) (some "Bearer tok") 80 =
      (.rejected 401 "Token has been invalidated. Please login again.", []) :=
  revoked_token_stays_rejected [] 0 "tok" 1 "logout" 100 100
    ⟨⟨"tok", 1, "logout", 100⟩, by decide, rfl, rfl⟩
    (blacklistToken (cleanupBlacklist (blacklistToken [] "tok" 1 "logout" 100) 50)
      "other" 2 "logout" 10) 80
    (Relation.ReflTransGen.tail
      (Relation.ReflTransGen.tail
        (Relation.ReflTransGen.tail
          (Relation.ReflTransGen.single
            (BlkStep.tick (blacklistToken [] "tok" 1 "logout" 100) 0 50 (by omega)))
          (BlkStep.cleanup (blacklistToken [] "tok" 1 "logout" 100) 50))
        (BlkStep.insert (cleanupBlacklist (blacklistToken [] "tok" 1 "logout" 100) 50)
          50 "other" 2 "logout" 10))
      (BlkStep.tick
        (blacklistToken (cleanupBlacklist (blacklistToken [] "tok" 1 "logout" 100) 50)
          "other" 2 "logout" 10) 50 80 (by omega)))
    (by omega)
    [⟨1, "a@x.com", "pw", "intern", true, 0, none, none⟩] []
    (fun _ => .valid 1) (some "Bearer tok") (by decide)

/-! ## C5 — backup codes are single-use -/

/-- After `markFirstUsed` succeeds on a store whose codes are pairwise
distinct, every entry carrying the looked-up code is used. -/
theorem markFirstUsed_allUsed (C : String) (t : Nat) :
    ∀ l l2 : List BackupCode, (l.map BackupCode.code).Nodup →
      markFirstUsed C t l = some l2 → allUsedOf C l2 := by
  intro l
  induction l with
  | nil => intro l2 _ h; simp [markFirstUsed] at h
  | cons bc rest ih =>
    intro l2 hnd h
    rw [List.map_cons, List.nodup_cons] at hnd
    by_cases hc : bc.code = C ∧ ¬ bc.used
    · rw [markFirstUsed, if_pos hc] at h
      cases h
      intro x hx hxc
      rcases List.mem_cons.mp hx with hx1 | hx2
      · rw [hx1]
      · exfalso
        exact hnd.1 (hc.1 ▸ hxc ▸ List.mem_map_of_mem BackupCode.code hx2)
    · rw [markFirstUsed, if_neg hc] at h
      rcases Option.map_eq_some'.mp h with ⟨r2, hr2, hl2⟩
      subst hl2
      intro x hx hxc
      rcases List.mem_cons.mp hx with hx1 | hx2
      · subst hx1
        rcases not_and_or.mp hc with h1 | h2
        · exact absurd hxc h1
        · simpa using h2
      · exact ih r2 hnd.2 hr2 x hx2 hxc

/-- Marking with `markFirstUsed` never un-marks a used entry: if every entry carrying `C`
is used, the same holds after a successful lookup of any code `D`. -/
theorem markFirstUsed_keeps_allUsed (C D : String) (t : Nat) :
    ∀ l l2 : List BackupCode, allUsedOf C l →
      markFirstUsed D t l = some l2 → allUsedOf C l2 := by
  intro l
  induction l with
  | nil => intro l2 _ h; simp [markFirstUsed] at h
  | cons bc rest ih =>
    intro l2 hall h
    by_cases hc : bc.code = D ∧ ¬ bc.used
    · rw [markFirstUsed, if_pos hc] at h
      cases h
      intro x hx hxc
      rcases List.mem_cons.mp hx with hx1 | hx2
      · rw [hx1]
      · exact hall x (List.mem_cons_of_mem bc hx2) hxc
    · rw [markFirstUsed, if_neg hc] at h
      rcases Option.map_eq_some'.mp h with ⟨r2, hr2, hl2⟩
      subst hl2
      intro x hx hxc
      rcases List.mem_cons.mp hx with hx1 | hx2
      · subst hx1; exact hall x (List.mem_cons_self x rest) hxc
      · exact ih r2 (fun y hy hyc => hall y (List.mem_cons_of_mem bc hy) hyc) hr2 x hx2 hxc

/-- When every entry carrying `C` is used, a lookup of `C` finds nothing. -/
theorem markFirstUsed_none (C : String) (t : Nat) :
    ∀ l : List BackupCode, allUsedOf C l → markFirstUsed C t l = none := by
  intro l
  induction l with
  | nil => intro _; rfl
  | cons bc rest ih =>
    intro hall
    have hc : ¬ (bc.code = C ∧ ¬ bc.used) := by
      rintro ⟨h1, h2⟩
      exact h2 (by simpa using hall bc (List.mem_cons_self bc rest) h1)
    rw [markFirstUsed, if_neg hc,
      ih (fun y hy hyc => hall y (List.mem_cons_of_mem bc hy) hyc)]
    rfl

/-- A `verifyBackupCode` call reports failure when the lookup finds no
unused entry. -/
theorem verifyBackupCode_false_of_none (tf : TwoFactorRec) (d : String) (t : Nat)
    (h : markFirstUsed (upperStr d) t tf.backupCodes = none) :
    (verifyBackupCode tf d t).2 = false := by
  unfold verifyBackupCode
  rw [h]

/-- A `verifyBackupCode` call with any code preserves the all-used state of
the entries carrying `C`. -/
theorem verifyBackupCode_keeps_allUsed (C : String) (tf : TwoFactorRec)
    (d : String) (t : Nat) (hall : allUsedOf C tf.backupCodes) :
    allUsedOf C (verifyBackupCode tf d t).1.backupCodes := by
  unfold verifyBackupCode
  cases h : markFirstUsed (upperStr d) t tf.backupCodes with
  | none => exact hall
  | some l2 => exact markFirstUsed_keeps_allUsed C (upperStr d) t tf.backupCodes l2 hall h

/-- Any sequence of `verifyBackupCode` calls preserves the all-used state of
the entries carrying `C`. -/
theorem applyBackupCalls_keeps_allUsed (C : String) :
    ∀ (calls : List (String × Nat)) (tf : TwoFactorRec),
      allUsedOf C tf.backupCodes →
      allUsedOf C (applyBackupCalls tf calls).backupCodes := by
  intro calls
  induction calls with
  | nil => intro tf hall; exact hall
  | cons p rest ih =>
    intro tf hall
    exact ih (verifyBackupCode tf p.1 p.2).1 (verifyBackupCode_keeps_allUsed C tf p.1 p.2 hall)

/-- C5: for every user with two-factor settings whose stored backup codes
(a set, hence pairwise distinct) contain a code `c`: once
`verifyBackupCode(user, c)` has returned success, every subsequent
sequential call with the same code — after any interleaved sequence of
further `verifyBackupCode` calls, and in any letter casing — returns
failure; each backup code is redeemable at most once. -/
theorem backupCode_single_use (tf : TwoFactorRec) (c : String) (t : Nat)
    (hnd : (tf.backupCodes.map BackupCode.code).Nodup)
    (hs : (verifyBackupCode tf c t).2 = true)
    (calls : List (String × Nat)) (c2 : String) (t2 : Nat)
    (hcase : upperStr c2 = upperStr c) :
    (verifyBackupCode (applyBackupCalls (verifyBackupCode tf c t).1 calls) c2 t2).2 = false := by
  have hall : allUsedOf (upperStr c) (verifyBackupCode tf c t).1.backupCodes := by
    unfold verifyBackupCode at hs ⊢
    cases h : markFirstUsed (upperStr c) t tf.backupCodes with
    | none => simp [h] at hs
    | some l2 => exact markFirstUsed_allUsed (upperStr c) t tf.backupCodes l2 hnd h
  have hall2 : allUsedOf (upperStr c)
      (applyBackupCalls (verifyBackupCode tf c t).1 calls).backupCodes :=
    applyBackupCalls_keeps_allUsed (upperStr c) calls (verifyBackupCode tf c t).1 hall
  have hnone : markFirstUsed (upperStr c2) t2
      (applyBackupCalls (verifyBackupCode tf c t).1 calls).backupCodes = none := by
    rw [hcase]
    exact markFirstUsed_none (upperStr c) t2 _ hall2
  exact verifyBackupCode_false_of_none _ c2 t2 hnone

/-- Witness for C5: the code `AB11` is accepted once and then rejected when
retried in lower case after an unrelated failed lookup. -/
theorem backupCode_single_use_witness :
    (verifyBackupCode
      (applyBackupCalls
        (verifyBackupCode ⟨1, true, [⟨"AB11", false, none⟩, ⟨"CD22", false, none⟩], none, 0, 0⟩
          "ab11" 5).1 [("zz99", 6)]) "Ab11" 7).2 = false :=
  backupCode_single_use ⟨1, true, [⟨"AB11", false, none⟩, ⟨"CD22", false, none⟩], none, 0, 0⟩
    "ab11" 5 (by decide) (by decide) [("zz99", 6)] "Ab11" 7 (by decide)

/-! ## C6 — the concurrency cap evicts the least-recently-active session -/

/-- The lookup `find?` returns the element when it is the unique one
satisfying the predicate. -/
theorem find?_eq_some_of_unique {α : Type} (p : α → Bool) :
    ∀ (L : List α) (a : α), a ∈ L → p a = true →
      (∀ y ∈ L, p y = true → y = a) → L.find? p = some a := by
  intro L
  induction L with
  | nil => intro a ha _ _; cases ha
  | cons x xs ih =>
    intro a ha hpa hu
    by_cases hx : p x = true
    · rw [List.find?_cons_of_pos xs hx]
      exact congrArg some (hu x (List.mem_cons_self x xs) hx)
    · rw [List.find?_cons_of_neg xs (by simpa using hx)]
      refine ih a ?_ hpa ?_
      · rcases List.mem_cons.mp ha with h | h
        · subst h; exact absurd hpa hx
        · exact h
      · exact fun y hy hp => hu y (List.mem_cons_of_mem x hy) hp

/-- C6: a user holds exactly three active, unexpired sessions
`s1, s2, s3` (in any store order), with `s1` the least recently active; a
4th session is created now and `enforceConcurrentLimit(user, 3)` runs.
Exactly the least-recently-active prior session `s1` is marked inactive
with logout reason `security`, the call returns 1, the evicted session's
access token subsequently fails `validateSession`, and the three
most-recently-active sessions (including the new one) still validate. -/
theorem concurrent_limit_evicts_lru
    (l0 l : List SessionRec) (s1 s2 s3 s4 : SessionRec) (u now : Nat)
    (tok4 : String) (rt4 : Option String) (ip4 ua4 : String) (di4 : DeviceInfo)
    (exp4 : Nat) (hexp4 : 0 < exp4)
    (hperm : l0.Perm [s1, s2, s3])
    (hl : l = createSession l0 u tok4 rt4 ip4 ua4 di4 exp4 now)
    (hs4 : s4 = ⟨u, tok4, rt4, ip4, ua4, di4, true, now, now + exp4, none, none⟩)
    (huid1 : s1.userId = u) (hact1 : s1.isActive = true) (hexp1 : now < s1.expiresAt)
    (huid2 : s2.userId = u) (hact2 : s2.isActive = true) (hexp2 : now < s2.expiresAt)
    (huid3 : s3.userId = u) (hact3 : s3.isActive = true) (hexp3 : now < s3.expiresAt)
    (ha2 : s1.lastActivity < s2.lastActivity)
    (ha3 : s1.lastActivity < s3.lastActivity)
    (ha4 : s1.lastActivity < now)
    (ht12 : s1.token ≠ s2.token) (ht13 : s1.token ≠ s3.token) (ht23 : s2.token ≠ s3.token)
    (ht14 : s1.token ≠ tok4) (ht24 : s2.token ≠ tok4) (ht34 : s3.token ≠ tok4) :
    (enforceConcurrentLimit l u 3 now).2 = 1 ∧
    (enforceConcurrentLimit l u 3 now).1 =
      l.map (fun s => if s.token = s1.token then s.evict now else s) ∧
    (validateSession (enforceConcurrentLimit l u 3 now).1 s1.token now).1 = none ∧
    (validateSession (enforceConcurrentLimit l u 3 now).1 s2.token now).1 = some s2 ∧
    (validateSession (enforceConcurrentLimit l u 3 now).1 s3.token now).1 = some s3 ∧
    (validateSession (enforceConcurrentLimit l u 3 now).1 tok4 now).1 = some s4 := by
  have hs4uid : s4.userId = u := by rw [hs4]
  have hs4act : s4.isActive = true := by rw [hs4]
  have hs4exp : now < s4.expiresAt := by rw [hs4]; simpa using hexp4
  have hs4la : s4.lastActivity = now := by rw [hs4]
  have hs4tok : s4.token = tok4 := by rw [hs4]
  have hl4 : l = l0 ++ [s4] := by rw [hl, hs4]; rfl
  have hperm4 : l.Perm [s1, s2, s3, s4] := by
    rw [hl4]
    simpa using hperm.append_right [s4]
  have hmem : ∀ x ∈ l, x = s1 ∨ x = s2 ∨ x = s3 ∨ x = s4 := by
    intro x hx
    simpa using hperm4.mem_iff.mp hx
  have hactive : ∀ x ∈ l, (fun s => s.activeFor u now) x = true := by
    intro x hx
    rcases hmem x hx with h | h | h | h <;> subst h <;>
      simp [SessionRec.activeFor, huid1, hact1, hexp1, huid2, hact2, hexp2,
        huid3, hact3, hexp3, hs4uid, hs4act, hs4exp]
  have hfilter : l.filter (fun s => s.activeFor u now) = l :=
    List.filter_eq_self.mpr hactive
  have hpperm : (List.insertionSort actGE l).Perm [s1, s2, s3, s4] :=
    (List.perm_insertionSort actGE l).trans hperm4
  have hplen : (List.insertionSort actGE l).length = 4 := by
    rw [hpperm.length_eq]; rfl
  obtain ⟨x, hx⟩ : ∃ x, (List.insertionSort actGE l).drop 3 = [x] :=
    List.length_eq_one.mp (by rw [List.length_drop, hplen])
  have hsorted : List.Sorted actGE (List.insertionSort actGE l) :=
    List.sorted_insertionSort actGE l
  have hxmem : x ∈ List.insertionSort actGE l :=
    List.drop_subset 3 _ (hx ▸ List.mem_singleton_self x)
  have hxmin : ∀ y ∈ (List.insertionSort actGE l).take 3,
      x.lastActivity ≤ y.lastActivity := by
    intro y hy
    exact hsorted.rel_of_mem_take_of_mem_drop hy (hx ▸ List.mem_singleton_self x)
  have hs1p : s1 ∈ List.insertionSort actGE l := hpperm.mem_iff.mpr (by simp)
  have key : ∀ z, x = z → s1.lastActivity < z.lastActivity → False := by
    intro z hz hlt
    subst hz
    have hs1take : s1 ∈ (List.insertionSort actGE l).take 3 := by
      have hmem2 : s1 ∈ (List.insertionSort actGE l).take 3 ++
          (List.insertionSort actGE l).drop 3 := by
        rw [List.take_append_drop]; exact hs1p
      rcases List.mem_append.mp hmem2 with h1 | h1
      · exact h1
      · rw [hx] at h1
        have h2 : s1 = x := by simpa using h1
        rw [h2] at hlt
        exact absurd hlt (lt_irrefl _)
    exact absurd (hxmin s1 hs1take) (by omega)
  have hxs1 : x = s1 := by
    rcases (by simpa using hpperm.mem_iff.mp hxmem :
        x = s1 ∨ x = s2 ∨ x = s3 ∨ x = s4) with h | h | h | h
    · exact h
    · exact absurd h (fun hh => key s2 hh ha2)
    · exact absurd h (fun hh => key s3 hh ha3)
    · exact absurd h (fun hh => key s4 hh (by rw [hs4la]; exact ha4))
  rw [hxs1] at hx
  have henf : enforceConcurrentLimit l u 3 now =
      (l.map (fun s => if s.token = s1.token then s.evict now else s), 1) := by
    unfold enforceConcurrentLimit
    rw [hfilter, if_pos (by rw [hplen]; omega), hx]
    simp only [List.map_cons, List.map_nil, List.length_cons, List.length_nil,
      List.mem_singleton, Nat.zero_add]
  have hmapmem : ∀ y ∈ l.map (fun s => if s.token = s1.token then s.evict now else s),
      y = s1.evict now ∨ y = s2 ∨ y = s3 ∨ y = s4 := by
    intro y hy
    rcases List.mem_map.mp hy with ⟨z, hz, hzy⟩
    rcases hmem z hz with h | h | h | h <;> subst h
    · left; rw [← hzy]; simp
    · right; left; rw [← hzy]; simp [if_neg (Ne.symm ht12)]
    · right; right; left; rw [← hzy]; simp [if_neg (Ne.symm ht13)]
    · right; right; right; rw [← hzy]; simp [hs4tok, if_neg (Ne.symm ht14)]
  have hmapself : ∀ z, z = s2 ∨ z = s3 ∨ z = s4 → z ∈ l →
      z ∈ l.map (fun s => if s.token = s1.token then s.evict now else s) := by
    intro z hcase hz
    refine List.mem_map.mpr ⟨z, hz, ?_⟩
    rcases hcase with h | h | h <;> subst h
    · simp [if_neg (Ne.symm ht12)]
    · simp [if_neg (Ne.symm ht13)]
    · simp [hs4tok, if_neg (Ne.symm ht14)]
  have hs2l : s2 ∈ l := hperm4.mem_iff.mpr (by simp)
  have hs3l : s3 ∈ l := hperm4.mem_iff.mpr (by simp)
  have hs4l : s4 ∈ l := hperm4.mem_iff.mpr (by simp)
  refine ⟨by rw [henf], by rw [henf], ?_, ?_, ?_, ?_⟩
  · -- the evicted session's token no longer validates
    rw [henf]
    unfold validateSession
    rw [List.find?_eq_none.mpr ?_]
    intro y hy
    rcases hmapmem y hy with h | h | h | h <;> subst h <;>
      simp [SessionRec.evict, Ne.symm ht12, Ne.symm ht13, hs4tok, Ne.symm ht14]
  · -- s2 still validates
    rw [henf]
    unfold validateSession
    rw [find?_eq_some_of_unique _ _ s2 (hmapself s2 (Or.inl rfl) hs2l)
      (by simp [hact2, hexp2]) ?_]
    intro y hy hpy
    rcases hmapmem y hy with h | h | h | h
    · exfalso; rw [h] at hpy; simp [SessionRec.evict] at hpy
    · exact h
    · exfalso; rw [h] at hpy
      exact ht23 (of_decide_eq_true hpy).1.symm
    · exfalso; rw [h] at hpy
      exact ht24 (hs4tok ▸ (of_decide_eq_true hpy).1).symm
  · -- s3 still validates
    rw [henf]
    unfold validateSession
    rw [find?_eq_some_of_unique _ _ s3 (hmapself s3 (Or.inr (Or.inl rfl)) hs3l)
      (by simp [hact3, hexp3]) ?_]
    intro y hy hpy
    rcases hmapmem y hy with h | h | h | h
    · exfalso; rw [h] at hpy; simp [SessionRec.evict] at hpy
    · exfalso; rw [h] at hpy
      exact ht23 (of_decide_eq_true hpy).1
    · exact h
    · exfalso; rw [h] at hpy
      exact ht34 (hs4tok ▸ (of_decide_eq_true hpy).1).symm
  · -- the new session still validates
    rw [henf]
    unfold validateSession
    rw [find?_eq_some_of_unique _ _ s4 (hmapself s4 (Or.inr (Or.inr rfl)) hs4l)
      (by simp [hs4tok, hs4act, hs4exp]) ?_]
    intro y hy hpy
    rcases hmapmem y hy with h | h | h | h
    · exfalso; rw [h] at hpy; simp [SessionRec.evict] at hpy
    · exfalso; rw [h] at hpy
      exact ht24 (of_decide_eq_true hpy).1
    · exfalso; rw [h] at hpy
      exact ht34 (of_decide_eq_true hpy).1
    · exact h

/-- Witness for C6: out of three stored sessions with activity stamps 10,
20, 30 plus a 4th created at time 100, the cap of 3 evicts exactly the
session with stamp 10 and its token stops validating. -/
theorem concurrent_limit_evicts_lru_witness :
    (enforceConcurrentLimit
        (createSession
          [⟨1, "t2", none, "ip2", "ua2", ⟨"Chrome", "Linux", "Desktop"⟩, true, 20, 200, none, none⟩,
           ⟨1, "t1", none, "ip1", "ua1", ⟨"Chrome", "Linux", "Desktop"⟩, true, 10, 200, none, none⟩,
           ⟨1, "t3", none, "ip3", "ua3", ⟨"Chrome", "Linux", "Desktop"⟩, true, 30, 200, none, none⟩]
          1 "t4" (some "r4") "ip4" "ua4" ⟨"Chrome", "Linux", "Desktop"⟩ 50 100) 1 3 100).2 = 1 ∧
    (validateSession
      (enforceConcurrentLimit
        (createSession
          [⟨1, "t2", none, "ip2", "ua2", ⟨"Chrome", "Linux", "Desktop"⟩, true, 20, 200, none, none⟩,
           ⟨1, "t1", none, "ip1", "ua1", ⟨"Chrome", "Linux", "Desktop"⟩, true, 10, 200, none, none⟩,
           ⟨1, "t3", none, "ip3", "ua3", ⟨"Chrome", "Linux", "Desktop"⟩, true, 30, 200, none, none⟩]
          1 "t4" (some "r4") "ip4" "ua4" ⟨"Chrome", "Linux", "Desktop"⟩ 50 100) 1 3 100).1
      "t1" 100).1 = none ∧
    (validateSession
      (enforceConcurrentLimit
        (createSession
          [⟨1, "t2", none, "ip2", "ua2", ⟨"Chrome", "Linux", "Desktop"⟩, true, 20, 200, none, none⟩,
           ⟨1, "t1", none, "ip1", "ua1", ⟨"Chrome", "Linux", "Desktop"⟩, true, 10, 200, none, none⟩,
           ⟨1, "t3", none, "ip3", "ua3", ⟨"Chrome", "Linux", "Desktop"⟩, true, 30, 200, none, none⟩]
          1 "t4" (some "r4") "ip4" "ua4" ⟨"Chrome", "Linux", "Desktop"⟩ 50 100) 1 3 100).1
      "t4" 100).1 =
      some ⟨1, "t4", some "r4", "ip4", "ua4", ⟨"Chrome", "Linux", "Desktop"⟩, true, 100, 150,
        none, none⟩ := by
  have h := concurrent_limit_evicts_lru
    [⟨1, "t2", none, "ip2", "ua2", ⟨"Chrome", "Linux", "Desktop"⟩, true, 20, 200, none, none⟩,
     ⟨1, "t1", none, "ip1", "ua1", ⟨"Chrome", "Linux", "Desktop"⟩, true, 10, 200, none, none⟩,
     ⟨1, "t3", none, "ip3", "ua3", ⟨"Chrome", "Linux", "Desktop"⟩, true, 30, 200, none, none⟩]
    (createSession
      [⟨1, "t2", none, "ip2", "ua2", ⟨"Chrome", "Linux", "Desktop"⟩, true, 20, 200, none, none⟩,
       ⟨1, "t1", none, "ip1", "ua1", ⟨"Chrome", "Linux", "Desktop"⟩, true, 10, 200, none, none⟩,
       ⟨1, "t3", none, "ip3", "ua3", ⟨"Chrome", "Linux", "Desktop"⟩, true, 30, 200, none, none⟩]
      1 "t4" (some "r4") "ip4" "ua4" ⟨"Chrome", "Linux", "Desktop"⟩ 50 100)
    ⟨1, "t1", none, "ip1", "ua1", ⟨"Chrome", "Linux", "Desktop"⟩, true, 10, 200, none, none⟩
    ⟨1, "t2", none, "ip2", "ua2", ⟨"Chrome", "Linux", "Desktop"⟩, true, 20, 200, none, none⟩
    ⟨1, "t3", none, "ip3", "ua3", ⟨"Chrome", "Linux", "Desktop"⟩, true, 30, 200, none, none⟩
    ⟨1, "t4", some "r4", "ip4", "ua4", ⟨"Chrome", "Linux", "Desktop"⟩, true, 100, 150, none, none⟩
    1 100 "t4" (some "r4") "ip4" "ua4" ⟨"Chrome", "Linux", "Desktop"⟩ 50
    (by decide) (by decide) rfl rfl
    rfl rfl (by decide) rfl rfl (by decide) rfl rfl (by decide)
    (by decide) (by decide) (by decide)
    (by decide) (by decide) (by decide) (by decide) (by decide) (by decide)
  exact ⟨h.1, h.2.2.1, h.2.2.2.2.2⟩

/-! ## C1 — stale signature counters are rejected as replay -/

/-- C1: for every user and every stored, non-counter-exempt WebAuthn
credential, a finish-authentication request whose assertion presents a
signature counter less than or equal to the credential's stored counter is
rejected with `ReplayDetected` even though the signature itself verifies
correctly; the response carries no tokens and the session store is left
unchanged — no session is created. -/
theorem webauthn_replay_rejected (st : WebAuthnState) (email : String)
    (cred : AssertionReq) (accessToken refreshTok ip ua : String)
    (di : DeviceInfo) (now : Nat) (user : UserRec) (dbCred : WebAuthnCred)
    (credentialId : String)
    (huser : st.users.find? (·.email = email) = some user)
    (hcid : cred.rawId.or cred.credId = some credentialId)
    (hfound : findByCredentialId st.creds credentialId = some dbCred)
    (howner : dbCred.userId = user.id)
    (hch : (verifyAndConsume st.challenges user.id cred.challenge "authentication" now).1 = true)
    (hcid2 : dbCred.credentialId ≠ "") (hpk : dbCred.publicKey ≠ "")
    (hsig : cred.signatureValid = true)
    (hexempt : dbCred.counterExempt = false)
    (hctr : cred.newCounter ≤ dbCred.counter) :
    (verifyAuthentication st (some email) (some cred) accessToken refreshTok
        ip ua di now).2 = .verificationError .replayDetected ∧
    (verifyAuthentication st (some email) (some cred) accessToken refreshTok
        ip ua di now).1.sessions = st.sessions := by
  have hver : verifyAuthenticationResponse cred.signatureValid dbCred.counter
      cred.newCounter dbCred.counterExempt = .error .replayDetected := by
    rw [hsig, hexempt]
    simp [verifyAuthenticationResponse, hctr]
  constructor
  · simp [verifyAuthentication, huser, hcid, hfound, howner, hch, hcid2, hpk, hver]
  · simp [verifyAuthentication, huser, hcid, hfound, howner, hch, hcid2, hpk, hver]

/-- Witness for C1: a credential stored with counter 5 and an assertion
presenting counter 5 with a valid signature is refused and no session
appears. -/
theorem webauthn_replay_rejected_witness :
    (verifyAuthentication
        ⟨[⟨1, "a@x.com", "pw", "intern", true, 0, none, none⟩],
         [⟨1, "cid1", "pk1", 5, false, none, 3, true⟩],
         [⟨1, "ch1", "authentication", 99⟩], []⟩
        (some "a@x.com") (some ⟨some "cid1", none, "ch1", true, 5⟩)
        "tok" "rtok" "ip" "ua" ⟨"Chrome", "Linux", "Desktop"⟩ 7).2 =
      .verificationError .replayDetected ∧
    (verifyAuthentication
        ⟨[⟨1, "a@x.com", "pw", "intern", true, 0, none, none⟩],
         [⟨1, "cid1", "pk1", 5, false, none, 3, true⟩],
         [⟨1, "ch1", "authentication", 99⟩], []⟩
        (some "a@x.com") (some ⟨some "cid1", none, "ch1", true, 5⟩)
        "tok" "rtok" "ip" "ua" ⟨"Chrome", "Linux", "Desktop"⟩ 7).1.sessions = [] :=
  webauthn_replay_rejected
    ⟨[⟨1, "a@x.com", "pw", "intern", true, 0, none, none⟩],
     [⟨1, "cid1", "pk1", 5, false, none, 3, true⟩],
     [⟨1, "ch1", "authentication", 99⟩], []⟩
    "a@x.com" ⟨some "cid1", none, "ch1", true, 5⟩ "tok" "rtok" "ip" "ua"
    ⟨"Chrome", "Linux", "Desktop"⟩ 7
    ⟨1, "a@x.com", "pw", "intern", true, 0, none, none⟩
    ⟨1, "cid1", "pk1", 5, false, none, 3, true⟩ "cid1"
    (by decide) (by decide) (by decide) (by decide) (by decide) (by decide)
    (by decide) (by decide) (by decide) (by decide)

/-! ## C2 — an inactive session does not cause rejection -/

/-- Counterexample for C2: a request whose bearer token is not blacklisted,
verifies, and belongs to an active user is **allowed** although the session
store is empty — no active, unexpired session exists for the token, yet
`protect` only logs a warning and calls `next()`. -/
theorem protect_allows_inactive_session :
    (protect [] [⟨1, "a@x.com", "pw", "intern", true, 0, none, none⟩] []
      (fun t => if t = "tok" then .valid 1 else .invalid)
      (some "Bearer tok") 1000).1 = .allowed 1 "tok" := by decide

/-- C2 (amended): the verdict of `protect` is exactly the session-free
specification `protectVerdictSpec` — the request is rejected when the token
is revoked (blacklisted), fails signature verification, is expired, or its
user no longer exists or is deactivated; a missing or inactive session for
the token does **not** cause rejection, whatever the session store
contains (the middleware merely logs a warning and proceeds). -/
theorem protect_matches_sessionFree_verdict (blacklist : List BlkEntry)
    (users : List UserRec) (sessions : List SessionRec)
    (jwtVerify : String → JwtOutcome) (authHeader : Option String) (now : Nat)
    (tok : String) (htok : extractBearer authHeader = some tok) :
    (protect blacklist users sessions jwtVerify authHeader now).1 =
      protectVerdictSpec blacklist users jwtVerify tok := by
  simp only [protect, htok, protectVerdictSpec]
  by_cases hb : isBlacklisted blacklist tok
  · simp [hb]
  · cases hj : jwtVerify tok with
    | expired => simp [hb, hj]
    | invalid => simp [hb, hj]
    | valid id =>
      cases hf : users.find? (·.id = id) with
      | none => simp [hb, hj, hf]
      | some u =>
        by_cases ha : u.isActive
        · simp [hb, hj, hf, ha]
        · simp [hb, hj, hf, ha]

/-- Witness for C2 at a concrete request with an **empty** session store:
the bearer passes every token/user check and is allowed although no session
exists for the token. -/
theorem protect_matches_sessionFree_verdict_witness :
    (protect [] [⟨1, "a@x.com", "pw", "intern", true, 0, none, none⟩] []
        (fun t => if t = "tok" then .valid 1 else .invalid) (some "Bearer tok") 1000).1 =
      protectVerdictSpec [] [⟨1, "a@x.com", "pw", "intern", true, 0, none, none⟩]
        (fun t => if t = "tok" then .valid 1 else .invalid) "tok" :=
  protect_matches_sessionFree_verdict [] [⟨1, "a@x.com", "pw", "intern", true, 0, none, none⟩]
    [] (fun t => if t = "tok" then .valid 1 else .invalid) (some "Bearer tok") 1000 "tok"
    (by decide)

/-! ## C7 — begin-authentication response shapes reveal account existence -/

/-- C7: at the failing input pair — an email matching no user versus the
email of an existing user with no registered credentials — the two
begin-authentication responses do **not** have the same shape: the unknown
email is answered 200/`success` with a `data` body, the credential-less
user 404/`fail` with a `message` body, so account existence is revealed,
against the intent documented in the code. -/
theorem beginAuth_shape_reveals_account :
    ((generateAuthOptions [⟨1, "alice@x.com", "pw", "intern", true, 0, none, none⟩] [] []
        (some "ghost@x.com") "ch" 0).1.shape ==
      (generateAuthOptions [⟨1, "alice@x.com", "pw", "intern", true, 0, none, none⟩] [] []
        (some "alice@x.com") "ch" 0).1.shape) = false := by decide

end CheckMate
